import Mathlib

/-!
Shallow embedding of the pytroll-modis-runner coordination logic
(`modis_runner/utils.py`, `modis_runner/publish_and_listen.py`,
`bin/seadas_modis_runner.py`) together with theorems settling the
frozen claims about the readiness registry, the job registry, the
ancillary-file freshness check, the geolocation command-line builder
and the listener's message filter.

Python dictionaries are modelled as functions `String → Option _`
(with `none` for an absent key); in-place mutation is modelled by
returning the updated map.  The filesystem is modelled by a
predicate giving `os.path.exists` and a function giving
`os.path.realpath`.  `datetime` values are modelled as total minute
counts in the proleptic Gregorian calendar (the only operations the
source performs on them are `strptime`, subtraction and comparison
against a `timedelta` of whole days).
-/

namespace ModisRunner

/-! ### String and path helpers (models of the Python library calls) -/

/-- Model of `str.startswith` (and of `str.find(p) == 0`, which is
equivalent): the character list of the pattern is a prefix of the
character list of the string. -/
def strStartsWith (s p : String) : Bool :=
  p.data.isPrefixOf s.data

/-- Model of `str.endswith`. -/
def strEndsWith (s p : String) : Bool :=
  p.data.reverse.isPrefixOf s.data.reverse

/-- Model of `os.path.basename`: everything after the last `/`
(the whole string when it has no `/`). -/
def os_path_basename (s : String) : String :=
  String.mk ((s.data.foldl (fun acc c => if c = '/' then [] else c :: acc) []).reverse)

/-- Model of `os.path.join` for the two-argument calls in the source. -/
def os_path_join (a b : String) : String :=
  if strStartsWith b "/" then b
  else if a = "" ∨ strEndsWith a "/" then a ++ b
  else a ++ "/" ++ b

/-- Split a character list at the leftmost occurrence of the pattern
`pat`, returning the part before it and the part after it. -/
def breakOnSubstr (pat : List Char) : List Char → Option (List Char × List Char)
  | [] => none
  | c :: rest =>
    if pat.isPrefixOf (c :: rest) then some ([], (c :: rest).drop pat.length)
    else
      match breakOnSubstr pat rest with
      | some (before, after) => some (c :: before, after)
      | none => none

/-- Model of `s.split(sep)[1]` for a non-empty separator: the chunk
between the first and the second occurrence of `sep` (up to the end
of the string when `sep` occurs only once); `none` models the
`IndexError` raised when `sep` does not occur in `s`. -/
def splitSecondChunk (sep : List Char) (s : List Char) : Option String :=
  match breakOnSubstr sep s with
  | none => none
  | some (_, rest) =>
    match breakOnSubstr sep rest with
    | none => some (String.mk rest)
    | some (mid, _) => some (String.mk mid)

/-- Result of `urllib.parse.urlparse`: the fields the source reads. -/
structure UrlParts where
  netloc : String
  path : String
deriving DecidableEq

/-- Model of `urllib.parse.urlparse`, restricted to the URI shapes the
runner receives: `scheme://netloc/path` (netloc is everything between
`://` and the first following `/`) and plain paths without `://`
(empty netloc, the whole string as path). -/
def urlparse (uri : String) : UrlParts :=
  match breakOnSubstr "://".data uri.data with
  | some (_, rest) =>
    let netloc := rest.takeWhile (fun c => c ≠ '/')
    ⟨String.mk netloc, String.mk (rest.drop netloc.length)⟩
  | none => ⟨"", uri⟩

/-! ### Data model for the readiness registry (`utils.ready2run`) -/

/-- Filename constants from the top of `modis_runner/utils.py`. -/
def PACKETFILE_AQUA_PRFX : String := "P154095715409581540959"

/-- Default EOS-Aqua modis-file filename start (`utils.py`). -/
def MODISFILE_AQUA_PRFX : String := "P1540064AAAAAAAAAAAAAA"

/-- Default EOS-Terra modis-file filename start (`utils.py`). -/
def MODISFILE_TERRA_PRFX : String := "P0420064AAAAAAAAAAAAAA"

/-- The value of the `sensor` field of a message: in Python it is
either a plain string or a list of strings. -/
inductive SensorVal where
  | str (s : String)
  | list (l : List String)
deriving DecidableEq

/-- The normalisation `sensor = message_data['sensor']; if not isinstance(sensor, list):
sensor = [sensor]` (utils.py, ready2run). -/
def sensorList : SensorVal → List String
  | SensorVal.str s => [s]
  | SensorVal.list l => l

/-- The message fields `ready2run` reads. -/
structure MessageData where
  uri : String
  platform_name : String
  sensor : SensorVal
deriving DecidableEq

/-- One value of the `eosfiles` registry: a Python dict that can hold
the keys `'modisfile'` and `'packetfile'`; `none` models an absent
key. -/
structure EosEntry where
  modisfile : Option String
  packetfile : Option String
deriving DecidableEq

/-- A fresh `{}` entry. -/
def emptyEntry : EosEntry := ⟨none, none⟩

/-- The readiness registry `eosfiles`: a dict from scene key to entry. -/
abbrev Registry := String → Option EosEntry

/-- Dict write `m[k] = v`. -/
def updateReg (m : Registry) (k : String) (v : EosEntry) : Registry :=
  fun x => if x = k then some v else m x

/-- The configuration keys `ready2run` and
`get_geo_command_line_list` read from the options dict; `none` models
an absent key (the `.get` defaults are applied at the use sites, as
in the source).  `modis_geo_script` is read with `options[...]`,
which presupposes presence, so it is a plain field. -/
structure Options where
  modisfile_terra_prfx : Option String
  modisfile_terra_postfx : Option String
  modisfile_aqua_prfx : Option String
  packetfile_aqua_prfx : Option String
  modisfile_aqua_postfx : Option String
  packetfile_aqua_postfx : Option String
  modis_geo_script : String
  modis_geo_options_terra : Option (List String)
  modis_geo_options_aqua : Option (List String)
deriving DecidableEq

/-- Lookup `options.get('modisfile_terra_prfx', MODISFILE_TERRA_PRFX)`. -/
def terraPrfx (options : Options) : String :=
  options.modisfile_terra_prfx.getD MODISFILE_TERRA_PRFX

/-- Lookup `options.get('modisfile_terra_postfx', '001.PDS')`. -/
def terraPostfx (options : Options) : String :=
  options.modisfile_terra_postfx.getD "001.PDS"

/-- Lookup `options.get('modisfile_aqua_prfx', MODISFILE_AQUA_PRFX)`. -/
def aquaModisPrfx (options : Options) : String :=
  options.modisfile_aqua_prfx.getD MODISFILE_AQUA_PRFX

/-- Lookup `options.get('packetfile_aqua_prfx', PACKETFILE_AQUA_PRFX)`. -/
def aquaPacketPrfx (options : Options) : String :=
  options.packetfile_aqua_prfx.getD PACKETFILE_AQUA_PRFX

/-- Lookup `options.get('modisfile_aqua_postfx', '001.PDS')`. -/
def aquaModisPostfx (options : Options) : String :=
  options.modisfile_aqua_postfx.getD "001.PDS"

/-- Lookup `options.get('packetfile_aqua_postfx', '001.PDS')`. -/
def aquaPacketPostfx (options : Options) : String :=
  options.packetfile_aqua_postfx.getD "001.PDS"

/-- The Terra filename test of `ready2run`:
`fname.startswith(modisfile_terra_prfx) and fname.endswith(modisfile_terra_postfx)`. -/
def terraMatches (options : Options) (fname : String) : Bool :=
  strStartsWith fname (terraPrfx options) && strEndsWith fname (terraPostfx options)

/-- The Aqua modis-role test:
`fname.find(modisfile_aqua_prfx) == 0 and fname.endswith(modisfile_aqua_postfx)`. -/
def aquaMatchesModis (options : Options) (fname : String) : Bool :=
  strStartsWith fname (aquaModisPrfx options) && strEndsWith fname (aquaModisPostfx options)

/-- The Aqua packet-role test:
`fname.find(packetfile_aqua_prfx) == 0 and fname.endswith(packetfile_aqua_postfx)`. -/
def aquaMatchesPacket (options : Options) (fname : String) : Bool :=
  strStartsWith fname (aquaPacketPrfx options) && strEndsWith fname (aquaPacketPostfx options)

/-- The outer Aqua filename guard of `ready2run`:
`(fname.find(modisfile_aqua_prfx) == 0 or fname.find(packetfile_aqua_prfx) == 0)
and (fname.endswith(modisfile_aqua_postfx) or fname.endswith(packetfile_aqua_postfx))`. -/
def aquaPattern (options : Options) (fname : String) : Bool :=
  (strStartsWith fname (aquaModisPrfx options) || strStartsWith fname (aquaPacketPrfx options)) &&
  (strEndsWith fname (aquaModisPostfx options) || strEndsWith fname (aquaPacketPostfx options))

/-- The final readiness test at the end of `ready2run`:
`'modisfile' in eosfiles[sceneid] and 'packetfile' in eosfiles[sceneid]`,
returning the unchanged registry alongside the boolean. -/
def readyCheck (eosfiles : Registry) (sceneid : String) : Bool × Registry :=
  match eosfiles sceneid with
  | some entry => (entry.modisfile.isSome && entry.packetfile.isSome, eosfiles)
  | none => (false, eosfiles)

/-- The opening lines of `ready2run`:
`if sceneid not in eosfiles: eosfiles[sceneid] = {}`. -/
def ensureEntry (eosfiles : Registry) (sceneid : String) : Registry :=
  if (eosfiles sceneid).isSome then eosfiles else updateReg eosfiles sceneid emptyEntry

/-- The two conditional role assignments of the Aqua branch of
`ready2run`, applied to the current entry of the scene key:
`eosfiles[sceneid]['modisfile'] = urlobj.path` when the modis-role
test fires, then `eosfiles[sceneid]['packetfile'] = urlobj.path` when
the packet-role test fires. -/
def aquaUpdateEntry (options : Options) (fname upath : String) (entry0 : EosEntry) : EosEntry :=
  let entry1 := if aquaMatchesModis options fname = true then
    EosEntry.mk (some upath) entry0.packetfile else entry0
  if aquaMatchesPacket options fname = true then
    EosEntry.mk entry1.modisfile (some upath) else entry1

/-- Embedding of `utils.ready2run(message_data, eosfiles, sceneid, options)`.
`fs` models `os.path.exists`.  The pair returned is the Python return
value together with the registry after the call (the source mutates
`eosfiles` in place). -/
def ready2run (fs : String → Bool) (message_data : MessageData) (eosfiles : Registry)
    (sceneid : String) (options : Options) : Bool × Registry :=
  let eos1 : Registry := ensureEntry eosfiles sceneid
  let upath : String := (urlparse message_data.uri).path
  let fname : String := os_path_basename upath
  if message_data.platform_name = "EOS-Terra" ∧ message_data.sensor = SensorVal.str "modis" then
    if terraMatches options fname = true then
      if fs upath = false then (false, eos1)
      else readyCheck (updateReg eos1 sceneid ⟨some upath, some ""⟩) sceneid
    else readyCheck eos1 sceneid
  else if message_data.platform_name = "EOS-Aqua" ∧
      (sensorList message_data.sensor).all (fun s => s == "modis" || s == "gbad") = true then
    if aquaPattern options fname = true then
      if fs upath = false then (false, eos1)
      else readyCheck
        (updateReg eos1 sceneid (aquaUpdateEntry options fname upath ((eos1 sceneid).getD emptyEntry)))
        sceneid
    else readyCheck eos1 sceneid
  else readyCheck eos1 sceneid

/-- The entry of a registry value holds the `'modisfile'` key. -/
def hasModis (o : Option EosEntry) : Bool :=
  (o.bind EosEntry.modisfile).isSome

/-- The entry of a registry value holds the `'packetfile'` key. -/
def hasPacket (o : Option EosEntry) : Bool :=
  (o.bind EosEntry.packetfile).isSome

/-- The entry holds both role keys: the state `ready2run` reports as
ready. -/
def bothRoles (o : Option EosEntry) : Bool :=
  hasModis o && hasPacket o

/-- Run `ready2run` over a sequence of notifications for one scene
key, collecting the returned booleans and the final registry. -/
def ready2runSeq (fs : String → Bool) (opts : Options) (sceneid : String) :
    List MessageData → Registry → List Bool × Registry
  | [], eos => ([], eos)
  | m :: rest, eos =>
    let r := ready2run fs m eos sceneid opts
    let t := ready2runSeq fs opts sceneid rest r.2
    (r.1 :: t.1, t.2)

/-! ### Job registry (`utils.scene_processed_recently`,
`bin/seadas_modis_runner.reset_job_registry`) -/

/-- Embedding of `utils.scene_processed_recently(job_register, sceneid)`.
The job register maps a scene key to the `datetime` stored at
admission, or to `None`; a `datetime` object is always truthy in
Python and `None` is falsy, so the dict value is modelled as
`Option Nat` (minutes) and the truthiness test `job_register[sceneid]`
as `Option.isSome`. -/
def scene_processed_recently (job_register : String → Option (Option Nat))
    (sceneid : String) : Bool :=
  match job_register sceneid with
  | some timestamp => timestamp.isSome
  | none => false

/-- Dict removal: `m.pop(k)` when present, no change when absent
(the source logs and continues in that case). -/
def removeKey {α : Type} (m : String → Option α) (k : String) : String → Option α :=
  fun x => if x = k then none else m x

/-- Embedding of `bin/seadas_modis_runner.reset_job_registry(objdict, eosfiles, key)`:
pops `key` from the job registry and from the eosfiles registry,
logging (not failing) when it is absent from either. -/
def reset_job_registry {α β : Type} (objdict : String → Option α)
    (eosfiles : String → Option β) (key : String) :
    (String → Option α) × (String → Option β) :=
  (removeKey objdict key, removeKey eosfiles key)

/-! ### Geolocation command line (`utils.get_geo_command_line_list`) -/

/-- Embedding of `utils.get_geo_command_line_list(options, mod01_file, mod03_file,
**kwargs)`; the only keyword arguments the source reads are
`attitude` and `ephemeris`, modelled as two `Option String`
parameters (`none` = keyword not supplied). -/
def get_geo_command_line_list (options : Options) (mod01_file mod03_file : String)
    (attitude ephemeris : Option String) : List String :=
  let modis_geo_script := options.modis_geo_script
  let cmdl : List String := [modis_geo_script]
  let cmd_opts := if attitude.isSome && ephemeris.isSome then
    options.modis_geo_options_aqua else options.modis_geo_options_terra
  let cmdl := match cmd_opts with
    | some lst => if lst.isEmpty then cmdl else cmdl ++ lst
    | none => cmdl
  if attitude.isSome && ephemeris.isSome then
    cmdl ++ ["--att1=" ++ attitude.getD "", "--eph1=" ++ ephemeris.getD ""] ++
      ["-o" ++ os_path_basename mod03_file, mod01_file]
  else
    cmdl ++ ["-o" ++ os_path_basename mod03_file, mod01_file]

/-! ### Listener message filter (`publish_and_listen.MODISFileListener.check_message`) -/

/-- The fields of a posttroll message that `check_message` reads;
optional fields model `... in msg.data` membership tests. -/
structure PMessage where
  mtype : String
  uri : String
  platform_name : Option String
  orbit_number : Option Int
  start_time : Option Nat
  sensor : Option SensorVal
deriving DecidableEq

/-- Embedding of `MODISFileListener.check_message(self, msg)`.  `gethostbyname`
models `socket.gethostbyname` and `local_ips` models
`posttroll.address_receiver.get_local_ips()`; `none` for `msg` models
a falsy message (`if not msg`). -/
def check_message (gethostbyname : String → String) (local_ips : List String)
    (eos_satellites : List String) (msg : Option PMessage) : Bool :=
  match msg with
  | none => false
  | some m =>
    if ¬(m.mtype = "file" ∨ m.mtype = "collection" ∨ m.mtype = "dataset") then false
    else
      let urlobj := urlparse m.uri
      let server := urlobj.netloc
      let url_ip := gethostbyname urlobj.netloc
      if server ≠ "" ∧ ¬(url_ip ∈ local_ips) then false
      else if m.platform_name.isNone ∨ m.orbit_number.isNone ∨ m.start_time.isNone then false
      else if ¬(m.platform_name.getD "" ∈ eos_satellites) then false
      else
        let sensor : List (Option String) := match m.sensor with
          | none => [none]
          | some (SensorVal.str s) => [some s]
          | some (SensorVal.list l) => l.map some
        if sensor.any (fun s => !(s == some "modis" || s == some "gbad")) then false
        else true

/-! ### Ancillary freshness check (`utils.check_utcpole_and_leapsec_files`) -/

/-- The two navigation helper files (`utils.NAVIGATION_HELPER_FILES`). -/
def NAVIGATION_HELPER_FILES : List String := ["utcpole.dat", "leapsec.dat"]

/-- The filesystem operations the freshness check performs. -/
structure FileSys where
  pathExists : String → Bool
  realpath : String → String

/-- Digit value of a character, `none` for a non-digit. -/
def charDigit (c : Char) : Option Nat :=
  if c.isDigit then some (c.toNat - 48) else none

/-- Decimal value of an all-digit character list, `none` when any
character is not a digit. -/
def digitsToNat (l : List Char) : Option Nat :=
  l.foldl (fun acc c =>
    match acc, charDigit c with
    | some n, some d => some (n * 10 + d)
    | _, _ => none) (some 0)

/-- Proleptic Gregorian leap-year rule (as used by `datetime`). -/
def isLeapYear (y : Nat) : Bool :=
  (y % 4 = 0 && y % 100 ≠ 0) || y % 400 = 0

/-- Length of a month. -/
def daysInMonth (y mo : Nat) : Nat :=
  if mo = 2 then (if isLeapYear y then 29 else 28)
  else if mo = 4 ∨ mo = 6 ∨ mo = 9 ∨ mo = 11 then 30
  else 31

/-- Days in year `y` strictly before month `mo`. -/
def daysBeforeMonth (y mo : Nat) : Nat :=
  (List.range (mo - 1)).foldl (fun acc m => acc + daysInMonth y (m + 1)) 0

/-- Days strictly before January 1 of year `y` in the proleptic
Gregorian calendar (year 1 is day count 0, as in
`datetime.toordinal`). -/
def daysBeforeYear (y : Nat) : Nat :=
  let n := y - 1
  365 * n + n / 4 - n / 100 + n / 400

/-- A `datetime` down to minute resolution, as a total minute count. -/
def datetimeMinutes (y mo d h mi : Nat) : Nat :=
  (daysBeforeYear y + daysBeforeMonth y mo + (d - 1)) * 1440 + h * 60 + mi

/-- Model of `datetime.strptime(s, "%Y%m%d%H%M")` on the canonical
twelve-digit timestamps the runner writes (`now.strftime('%Y%m%d%H%M')`):
four digit year, two digit month, day, hour and minute, with
`datetime`'s range checks; `none` models the `ValueError` raised for
any other string. -/
def strptime_YmdHM (s : String) : Option Nat :=
  let l := s.data
  if l.length = 12 then
    match digitsToNat (l.take 4), digitsToNat ((l.drop 4).take 2),
        digitsToNat ((l.drop 6).take 2), digitsToNat ((l.drop 8).take 2),
        digitsToNat (l.drop 10) with
    | some y, some mo, some d, some h, some mi =>
      if 1 ≤ y ∧ 1 ≤ mo ∧ mo ≤ 12 ∧ 1 ≤ d ∧ d ≤ daysInMonth y mo ∧ h ≤ 23 ∧ mi ≤ 59 then
        some (datetimeMinutes y mo d h mi)
      else none
    | _, _, _, _, _ => none
  else none

/-- The timestamp extraction
`os.path.basename(realpath).split('.dat_')[1]`; `none` models the
caught `IndexError` (no `.dat_` in the resolved name, i.e. the file
is not linked to a timestamped backup). -/
def splitDatTimestamp (s : String) : Option String :=
  splitSecondChunk ".dat_".data s.data

/-- The per-file body of the loop in
`utils.check_utcpole_and_leapsec_files`: `some true` - the file
passes; `some false` - `files_ok` is set to `False` and the loop
breaks (missing file, caught `IndexError`, or too old); `none` - the
uncaught `ValueError` from `strptime` propagates out of the
function.  `now` is `datetime.utcnow()` in minutes; ages compare
against `timedelta(days=thr_days)`, i.e. `thr_days * 1440` minutes. -/
def navCheckFile (fsys : FileSys) (now thr_days : Nat) (dir bname : String) : Option Bool :=
  let filename := os_path_join dir bname
  if fsys.pathExists filename then
    let realpath := fsys.realpath filename
    match splitDatTimestamp (os_path_basename realpath) with
    | none => some false
    | some tstamp =>
      match strptime_YmdHM tstamp with
      | none => none
      | some tobj => if now - tobj > thr_days * 1440 then some false else some true
  else some false

/-- The `for bname in NAVIGATION_HELPER_FILES` loop: the first
non-passing file decides the result (`break`), an uncaught
`ValueError` propagates. -/
def navCheckLoop (fsys : FileSys) (now thr_days : Nat) (dir : String) :
    List String → Option Bool
  | [] => some true
  | bname :: rest =>
    match navCheckFile fsys now thr_days dir bname with
    | some true => navCheckLoop fsys now thr_days dir rest
    | r => r

/-- Embedding of `utils.check_utcpole_and_leapsec_files(leapsec_dir, thr_days)`:
`some b` models a normal return of `b`, `none` models an uncaught
`ValueError` escaping the function. -/
def check_utcpole_and_leapsec_files (fsys : FileSys) (now : Nat)
    (leapsec_dir : String) (thr_days : Nat) : Option Bool :=
  navCheckLoop fsys now thr_days leapsec_dir NAVIGATION_HELPER_FILES

/-- A navigation helper file passes every check (exists, resolved
name carries a `.dat_` timestamp, the timestamp parses and is not
older than the threshold). -/
def navFileFresh (fsys : FileSys) (now thr_days : Nat) (dir bname : String) : Bool :=
  let filename := os_path_join dir bname
  fsys.pathExists filename &&
    (match splitDatTimestamp (os_path_basename (fsys.realpath filename)) with
     | some tstamp =>
       match strptime_YmdHM tstamp with
       | some tobj => !(decide (now - tobj > thr_days * 1440))
       | none => false
     | none => false)

/-- A navigation helper file fails in one of the soft ways that make
the source set `files_ok = False`: the file is absent, its resolved
name has no `.dat_` timestamp, or the parsed timestamp is older than
the threshold. -/
def navFileSoftFails (fsys : FileSys) (now thr_days : Nat) (dir bname : String) : Bool :=
  let filename := os_path_join dir bname
  if fsys.pathExists filename then
    match splitDatTimestamp (os_path_basename (fsys.realpath filename)) with
    | some tstamp =>
      match strptime_YmdHM tstamp with
      | some tobj => decide (now - tobj > thr_days * 1440)
      | none => false
    | none => true
  else true

/-- A navigation helper file exists and carries a `.dat_` timestamp
field that does not parse: the case in which `strptime` raises. -/
def navFileRaisesParse (fsys : FileSys) (now thr_days : Nat) (dir bname : String) : Bool :=
  let filename := os_path_join dir bname
  fsys.pathExists filename &&
    (match splitDatTimestamp (os_path_basename (fsys.realpath filename)) with
     | some tstamp => (strptime_YmdHM tstamp).isNone
     | none => false)

/-! ### Concrete test fixtures used by counterexamples and witnesses -/

/-- Options dict providing only the mandatory geolocation script
(every naming pattern comes from the source defaults). -/
def wOptions : Options := ⟨none, none, none, none, none, none, "modis_GEO.py", none, none⟩

/-- Options dict with explicit Terra and Aqua geolocation option
lists. -/
def wGeoOptions : Options :=
  ⟨none, none, none, none, none, none, "modis_GEO.py",
    some ["--verbose", "--enable-dem", "--entrained", "--disable-download"],
    some ["--verbose", "--enable-dem", "--disable-download"]⟩

/-- A filesystem on which every path exists. -/
def wFsAll : String → Bool := fun _ => true

/-- A filesystem on which no path exists. -/
def wFsNone : String → Bool := fun _ => false

/-- The empty readiness registry. -/
def wRegEmpty : Registry := fun _ => none

/-- A registry on which scene key `"scene1"` is already ready. -/
def wRegReady : Registry :=
  fun k => if k = "scene1" then some ⟨some "/level0/m.PDS", some "/level0/p.PDS"⟩ else none

/-- A Terra modis-file notification with a local path. -/
def wMsgTerra : MessageData :=
  ⟨"/level0/P0420064AAAAAAAAAAAAAA22001.PDS", "EOS-Terra", SensorVal.str "modis"⟩

/-- A Terra modis-file notification whose URI names a remote host. -/
def wMsgTerraRemote : MessageData :=
  ⟨"ssh://remotehost/level0/P0420064AAAAAAAAAAAAAA22001.PDS", "EOS-Terra", SensorVal.str "modis"⟩

/-- An Aqua modis-role notification. -/
def wMsgAquaModis : MessageData :=
  ⟨"/level0/P1540064AAAAAAAAAAAAAA25001.PDS", "EOS-Aqua", SensorVal.list ["modis"]⟩

/-- An Aqua packet-role notification. -/
def wMsgAquaPacket : MessageData :=
  ⟨"/level0/P154095715409581540959.B25001.PDS", "EOS-Aqua", SensorVal.list ["gbad"]⟩

/-- An Aqua notification whose filename matches neither role pattern. -/
def wMsgJunk : MessageData :=
  ⟨"/level0/junk.txt", "EOS-Aqua", SensorVal.list ["modis"]⟩

/-- A job register with one running scene and one null-valued entry. -/
def wJobReg : String → Option (Option Nat) :=
  fun k => if k = "running" then some (some 1) else if k = "nullentry" then some none else none

/-- A job registry (scene key to admission minute) for eviction tests. -/
def wJobs : String → Option Nat := fun k => if k = "scene1" then some 5 else none

/-- A filesystem on which `utcpole.dat` exists but resolves to a
backup name whose timestamp field does not parse. -/
def wFsRaise : FileSys :=
  ⟨fun f => f = "/etc/utcpole.dat",
   fun f => if f = "/etc/utcpole.dat" then "/etc/utcpole.dat_GARBAGEXXXX" else f⟩

/-- A filesystem with no navigation helper files at all. -/
def wFsMissing : FileSys := ⟨fun _ => false, fun s => s⟩

/-- A filesystem on which both helper files resolve to backups
timestamped 2023-01-01 12:00. -/
def wFsGood : FileSys :=
  ⟨fun f => f = "/etc/utcpole.dat" ∨ f = "/etc/leapsec.dat", fun f => f ++ "_202301011200"⟩

/-- A resolver mapping every hostname to a fixed non-local address. -/
def wResolverRemote : String → String := fun _ => "10.0.0.9"

/-- The local address set used in listener fixtures. -/
def wLocalIps : List String := ["127.0.0.1", "192.168.1.5"]

/-- A full posttroll message whose URI names a remote host. -/
def wPMsgRemote : PMessage :=
  ⟨"file", "ssh://remotehost/level0/P0420064AAAAAAAAAAAAAA22001.PDS",
    some "EOS-Terra", some 22, some 0, some (SensorVal.str "modis")⟩

/-! ### Helper lemmas about the registry operations -/

theorem updateReg_self (m : Registry) (k : String) (v : EosEntry) : updateReg m k v k = some v := by
  simp [updateReg]

theorem updateReg_ne (m : Registry) (k : String) (v : EosEntry) (x : String) (h : x ≠ k) :
    updateReg m k v x = m x := by
  simp [updateReg, h]

theorem ensureEntry_sid (m : Registry) (sid : String) :
    ensureEntry m sid sid = some ((m sid).getD emptyEntry) := by
  unfold ensureEntry
  cases h : m sid with
  | none => simp [h, updateReg]
  | some e => simp [h]

theorem ensureEntry_ne (m : Registry) (sid x : String) (h : x ≠ sid) :
    ensureEntry m sid x = m x := by
  unfold ensureEntry
  cases hm : m sid with
  | none => simp [updateReg, h]
  | some e => simp

theorem readyCheck_snd (m : Registry) (k : String) : (readyCheck m k).2 = m := by
  unfold readyCheck
  cases m k <;> rfl

theorem readyCheck_fst (m : Registry) (k : String) : (readyCheck m k).1 = bothRoles (m k) := by
  unfold readyCheck bothRoles hasModis hasPacket
  cases m k <;> simp

theorem hasModis_getD (o : Option EosEntry) :
    ((o.getD emptyEntry).modisfile).isSome = hasModis o := by
  cases o <;> simp [hasModis, emptyEntry]

theorem hasPacket_getD (o : Option EosEntry) :
    ((o.getD emptyEntry).packetfile).isSome = hasPacket o := by
  cases o <;> simp [hasPacket, emptyEntry]

theorem bothRoles_some_getD (o : Option EosEntry) :
    bothRoles (some (o.getD emptyEntry)) = bothRoles o := by
  cases o <;> simp [bothRoles, hasModis, hasPacket, emptyEntry]

theorem hasModis_ensureEntry (m : Registry) (sid k : String) :
    hasModis (ensureEntry m sid k) = hasModis (m k) := by
  by_cases hk : k = sid
  · subst hk
    rw [ensureEntry_sid]
    cases m k <;> simp [hasModis, emptyEntry]
  · rw [ensureEntry_ne m sid k hk]

theorem hasPacket_ensureEntry (m : Registry) (sid k : String) :
    hasPacket (ensureEntry m sid k) = hasPacket (m k) := by
  by_cases hk : k = sid
  · subst hk
    rw [ensureEntry_sid]
    cases m k <;> simp [hasPacket, emptyEntry]
  · rw [ensureEntry_ne m sid k hk]

theorem aquaUpdateEntry_modisfile (options : Options) (fname upath : String) (entry0 : EosEntry) :
    (aquaUpdateEntry options fname upath entry0).modisfile =
      (if aquaMatchesModis options fname = true then some upath else entry0.modisfile) := by
  unfold aquaUpdateEntry
  split <;> split <;> simp_all

theorem aquaUpdateEntry_packetfile (options : Options) (fname upath : String) (entry0 : EosEntry) :
    (aquaUpdateEntry options fname upath entry0).packetfile =
      (if aquaMatchesPacket options fname = true then some upath else entry0.packetfile) := by
  unfold aquaUpdateEntry
  split <;> split <;> simp_all

/-! ### Structural lemmas about `ready2run` -/

/-- When the referenced file does not exist, the only registry change
`ready2run` makes is the unconditional creation of an empty entry for
a fresh scene key, and the returned flag is the readiness of the
entry that was already there. -/
theorem ready2run_fileMissing (fs : String → Bool) (msg : MessageData) (eos : Registry)
    (sid : String) (opts : Options) (hnf : fs ((urlparse msg.uri).path) = false) :
    (ready2run fs msg eos sid opts).2 = ensureEntry eos sid ∧
    (bothRoles (eos sid) = false → (ready2run fs msg eos sid opts).1 = false) := by
  have hready : readyCheck (ensureEntry eos sid) sid = (bothRoles (eos sid), ensureEntry eos sid) := by
    have h1 := readyCheck_fst (ensureEntry eos sid) sid
    have h2 := readyCheck_snd (ensureEntry eos sid) sid
    rw [ensureEntry_sid, bothRoles_some_getD] at h1
    exact Prod.ext h1 h2
  unfold ready2run
  simp only [hnf]
  split_ifs with h1 h2 h3 h4 <;> simp_all

/-- The function `ready2run` reports readiness only when the scene entry holds
both role keys after the call. -/
theorem ready2run_true_bothRoles (fs : String → Bool) (msg : MessageData) (eos : Registry)
    (sid : String) (opts : Options) :
    (ready2run fs msg eos sid opts).1 = true →
    bothRoles ((ready2run fs msg eos sid opts).2 sid) = true := by
  simp only [ready2run]
  split_ifs <;>
    simp [readyCheck_fst, readyCheck_snd]

/-- The function `ready2run` never removes the modis role of any scene key. -/
theorem ready2run_mono_modis (fs : String → Bool) (msg : MessageData) (eos : Registry)
    (sid : String) (opts : Options) (k : String) (h : hasModis (eos k) = true) :
    hasModis ((ready2run fs msg eos sid opts).2 k) = true := by
  by_cases hk : k = sid
  · subst hk
    simp only [ready2run]
    split_ifs <;>
      simp_all [readyCheck_snd, updateReg_self, ensureEntry_sid, hasModis,
        aquaUpdateEntry_modisfile, Option.getD_some, hasModis_ensureEntry] <;>
      (try split) <;>
      simp_all [hasModis_getD, hasModis]
  · simp only [ready2run]
    split_ifs <;>
      simp_all [readyCheck_snd, updateReg_ne _ _ _ _ hk, ensureEntry_ne _ _ _ hk]

/-- The function `ready2run` never removes the packet role of any scene key. -/
theorem ready2run_mono_packet (fs : String → Bool) (msg : MessageData) (eos : Registry)
    (sid : String) (opts : Options) (k : String) (h : hasPacket (eos k) = true) :
    hasPacket ((ready2run fs msg eos sid opts).2 k) = true := by
  by_cases hk : k = sid
  · subst hk
    simp only [ready2run]
    split_ifs <;>
      simp_all [readyCheck_snd, updateReg_self, ensureEntry_sid, hasPacket,
        aquaUpdateEntry_packetfile, Option.getD_some, hasPacket_ensureEntry] <;>
      (try split) <;>
      simp_all [hasPacket_getD, hasPacket]
  · simp only [ready2run]
    split_ifs <;>
      simp_all [readyCheck_snd, updateReg_ne _ _ _ _ hk, ensureEntry_ne _ _ _ hk]

/-- The function `ready2run` never deletes a scene entry. -/
theorem ready2run_mono_entry (fs : String → Bool) (msg : MessageData) (eos : Registry)
    (sid : String) (opts : Options) (k : String) (h : (eos k).isSome = true) :
    (((ready2run fs msg eos sid opts).2 k)).isSome = true := by
  by_cases hk : k = sid
  · subst hk
    simp only [ready2run]
    split_ifs <;>
      simp_all [readyCheck_snd, updateReg_self, ensureEntry_sid]
  · simp only [ready2run]
    split_ifs <;>
      simp_all [readyCheck_snd, updateReg_ne _ _ _ _ hk, ensureEntry_ne _ _ _ hk]

/-- An EOS-Aqua notification that does not match the packet-role
pattern leaves a packet-less entry packet-less and returns `false`. -/
theorem ready2run_aqua_noPacket (fs : String → Bool) (msg : MessageData) (eos : Registry)
    (sid : String) (opts : Options)
    (hp : msg.platform_name = "EOS-Aqua")
    (hm : aquaMatchesPacket opts (os_path_basename (urlparse msg.uri).path) = false)
    (h0 : hasPacket (eos sid) = false) :
    (ready2run fs msg eos sid opts).1 = false ∧
    hasPacket ((ready2run fs msg eos sid opts).2 sid) = false := by
  have hterra : ¬(msg.platform_name = "EOS-Terra" ∧ msg.sensor = SensorVal.str "modis") := by
    rw [hp]
    rintro ⟨hcontr, -⟩
    exact absurd hcontr (by decide)
  simp only [ready2run]
  split_ifs <;>
    simp_all [readyCheck_fst, readyCheck_snd, updateReg_self, ensureEntry_sid,
      bothRoles_some_getD, bothRoles, hasPacket_ensureEntry, hasPacket,
      aquaUpdateEntry_packetfile, hasPacket_getD]

/-- An EOS-Aqua notification that does not match the modis-role
pattern leaves a modis-less entry modis-less and returns `false`. -/
theorem ready2run_aqua_noModis (fs : String → Bool) (msg : MessageData) (eos : Registry)
    (sid : String) (opts : Options)
    (hp : msg.platform_name = "EOS-Aqua")
    (hm : aquaMatchesModis opts (os_path_basename (urlparse msg.uri).path) = false)
    (h0 : hasModis (eos sid) = false) :
    (ready2run fs msg eos sid opts).1 = false ∧
    hasModis ((ready2run fs msg eos sid opts).2 sid) = false := by
  have hterra : ¬(msg.platform_name = "EOS-Terra" ∧ msg.sensor = SensorVal.str "modis") := by
    rw [hp]
    rintro ⟨hcontr, -⟩
    exact absurd hcontr (by decide)
  simp only [ready2run]
  split_ifs <;>
    simp_all [readyCheck_fst, readyCheck_snd, updateReg_self, ensureEntry_sid,
      bothRoles_some_getD, bothRoles, hasModis_ensureEntry, hasModis,
      aquaUpdateEntry_modisfile, hasModis_getD]

/-- Over a whole sequence of packet-less EOS-Aqua notifications, every
`ready2run` call returns `false`. -/
theorem ready2runSeq_noPacket (fs : String → Bool) (opts : Options) (sid : String)
    (msgs : List MessageData) :
    ∀ eos : Registry, hasPacket (eos sid) = false →
    (∀ m ∈ msgs, m.platform_name = "EOS-Aqua" ∧
        aquaMatchesPacket opts (os_path_basename (urlparse m.uri).path) = false) →
    (ready2runSeq fs opts sid msgs eos).1.contains true = false := by
  induction msgs with
  | nil => intro eos _ _; rfl
  | cons m rest ih =>
    intro eos h0 hms
    have hm := hms m (List.mem_cons_self m rest)
    have hr := ready2run_aqua_noPacket fs m eos sid opts hm.1 hm.2 h0
    have htail := ih (ready2run fs m eos sid opts).2 hr.2
      (fun x hx => hms x (List.mem_cons_of_mem m hx))
    simp [ready2runSeq, hr.1, List.contains, htail]
    simpa [List.contains] using htail

/-- Over a whole sequence of modis-less EOS-Aqua notifications, every
`ready2run` call returns `false`. -/
theorem ready2runSeq_noModis (fs : String → Bool) (opts : Options) (sid : String)
    (msgs : List MessageData) :
    ∀ eos : Registry, hasModis (eos sid) = false →
    (∀ m ∈ msgs, m.platform_name = "EOS-Aqua" ∧
        aquaMatchesModis opts (os_path_basename (urlparse m.uri).path) = false) →
    (ready2runSeq fs opts sid msgs eos).1.contains true = false := by
  induction msgs with
  | nil => intro eos _ _; rfl
  | cons m rest ih =>
    intro eos h0 hms
    have hm := hms m (List.mem_cons_self m rest)
    have hr := ready2run_aqua_noModis fs m eos sid opts hm.1 hm.2 h0
    have htail := ih (ready2run fs m eos sid opts).2 hr.2
      (fun x hx => hms x (List.mem_cons_of_mem m hx))
    simpa [ready2runSeq, hr.1, List.contains] using htail

/-! ### Claim theorems -/

/-- C1 counterexample: the claim "a notification whose file does not
exist leaves the eosfiles map exactly as it was and returns false,
for every scene key and configuration" is false on the code.  First,
`ready2run` unconditionally inserts an empty entry for a fresh scene
key before any existence check, so the registry is mutated.  Second,
for a scene key whose entry already holds both roles, a
nonexistent-file notification whose filename matches no naming
pattern falls through to the final readiness check and returns true. -/
theorem C1_counterexample :
    (ready2run wFsNone wMsgTerra wRegEmpty "scene9" wOptions).2 "scene9" ≠ wRegEmpty "scene9" ∧
    (ready2run wFsNone wMsgJunk wRegReady "scene1" wOptions).1 = true := by
  constructor
  · decide
  · decide

/-- C1 (amended): when the referenced file path does not exist on
disk, `ready2run` records no file path: every scene key other than
the current one is untouched, the current key's entry is exactly the
entry it had before (an empty entry when the key was fresh), and the
call returns false whenever that prior entry did not already hold
both role keys. -/
theorem C1_nonexistent_file_records_nothing (fs : String → Bool) (msg : MessageData)
    (eos : Registry) (sid : String) (opts : Options)
    (hnf : fs ((urlparse msg.uri).path) = false) :
    (∀ k, k ≠ sid → (ready2run fs msg eos sid opts).2 k = eos k) ∧
    (ready2run fs msg eos sid opts).2 sid = some ((eos sid).getD emptyEntry) ∧
    (bothRoles (eos sid) = false → (ready2run fs msg eos sid opts).1 = false) := by
  have h := ready2run_fileMissing fs msg eos sid opts hnf
  refine ⟨fun k hk => ?_, ?_, h.2⟩
  · rw [h.1, ensureEntry_ne _ _ _ hk]
  · rw [h.1, ensureEntry_sid]

/-- C1 witness: the amended statement at a concrete nonexistent-file
notification on a fresh scene key. -/
theorem C1_witness :
    (ready2run wFsNone wMsgTerra wRegEmpty "scene9" wOptions).2 "other" = wRegEmpty "other" ∧
    (ready2run wFsNone wMsgTerra wRegEmpty "scene9" wOptions).2 "scene9" =
      some ((wRegEmpty "scene9").getD emptyEntry) ∧
    (ready2run wFsNone wMsgTerra wRegEmpty "scene9" wOptions).1 = false := by
  have h := C1_nonexistent_file_records_nothing wFsNone wMsgTerra wRegEmpty "scene9" wOptions rfl
  exact ⟨h.1 "other" (by decide), h.2.1, h.2.2 (by decide)⟩

/-- C2: `scene_processed_recently` returns true exactly for the scene
keys present in the job register with a non-null timestamp, and false
for absent keys and null-valued keys. -/
theorem C2_scene_processed_recently_spec (job_register : String → Option (Option Nat))
    (sceneid : String) :
    (scene_processed_recently job_register sceneid = true ↔
      ∃ t, job_register sceneid = some (some t)) ∧
    (job_register sceneid = none → scene_processed_recently job_register sceneid = false) ∧
    (job_register sceneid = some none → scene_processed_recently job_register sceneid = false) := by
  refine ⟨?_, ?_, ?_⟩
  · cases h : job_register sceneid with
    | none => simp [scene_processed_recently, h]
    | some v => cases v <;> simp [scene_processed_recently, h]
  · intro h
    simp [scene_processed_recently, h]
  · intro h
    simp [scene_processed_recently, h]

/-- C2 witness: the specification evaluated on a register with one
running key, one null-valued key and one absent key. -/
theorem C2_witness :
    scene_processed_recently wJobReg "running" = true ∧
    scene_processed_recently wJobReg "nullentry" = false ∧
    scene_processed_recently wJobReg "absent" = false := by
  refine ⟨?_, ?_, ?_⟩
  · exact (C2_scene_processed_recently_spec wJobReg "running").1.mpr ⟨1, by decide⟩
  · exact (C2_scene_processed_recently_spec wJobReg "nullentry").2.2 (by decide)
  · exact (C2_scene_processed_recently_spec wJobReg "absent").2.1 (by decide)

/-- C3: on EOS-Aqua, `ready2run` returns true only when both the
modis role and the packet role are recorded for the scene key, and a
sequence of notifications that supplies only one of the two roles
(whichever one, starting from a registry with no entry for the key)
returns false at every call. -/
theorem C3_aqua_requires_both_roles (fs : String → Bool) (opts : Options) (sid : String) :
    (∀ (msg : MessageData) (eos : Registry), msg.platform_name = "EOS-Aqua" →
      (ready2run fs msg eos sid opts).1 = true →
      bothRoles ((ready2run fs msg eos sid opts).2 sid) = true) ∧
    (∀ (msgs : List MessageData) (eos : Registry), eos sid = none →
      (∀ m ∈ msgs, m.platform_name = "EOS-Aqua" ∧
        aquaMatchesPacket opts (os_path_basename (urlparse m.uri).path) = false) →
      (ready2runSeq fs opts sid msgs eos).1.contains true = false) ∧
    (∀ (msgs : List MessageData) (eos : Registry), eos sid = none →
      (∀ m ∈ msgs, m.platform_name = "EOS-Aqua" ∧
        aquaMatchesModis opts (os_path_basename (urlparse m.uri).path) = false) →
      (ready2runSeq fs opts sid msgs eos).1.contains true = false) := by
  refine ⟨fun msg eos _ h => ready2run_true_bothRoles fs msg eos sid opts h, ?_, ?_⟩
  · intro msgs eos h0 hm
    exact ready2runSeq_noPacket fs opts sid msgs eos (by simp [hasPacket, h0]) hm
  · intro msgs eos h0 hm
    exact ready2runSeq_noModis fs opts sid msgs eos (by simp [hasModis, h0]) hm

/-- C3 witness: two modis-role-only notifications and two
packet-role-only notifications, each sequence starting from the empty
registry with every file present on disk, all return false. -/
theorem C3_witness :
    (ready2runSeq wFsAll wOptions "sceneA" [wMsgAquaModis, wMsgAquaModis]
      wRegEmpty).1.contains true = false ∧
    (ready2runSeq wFsAll wOptions "sceneA" [wMsgAquaPacket, wMsgAquaPacket]
      wRegEmpty).1.contains true = false := by
  constructor
  · exact (C3_aqua_requires_both_roles wFsAll wOptions "sceneA").2.1
      [wMsgAquaModis, wMsgAquaModis] wRegEmpty rfl (by decide)
  · exact (C3_aqua_requires_both_roles wFsAll wOptions "sceneA").2.2
      [wMsgAquaPacket, wMsgAquaPacket] wRegEmpty rfl (by decide)

/-- C5: `reset_job_registry` removes the key from both the job
registry and the eosfiles registry, leaves every other key alone,
changes nothing (and does not fail) when the key is absent, and is
idempotent. -/
theorem C5_reset_job_registry_spec {α β : Type} (objdict : String → Option α)
    (eosfiles : String → Option β) (key : String) :
    ((reset_job_registry objdict eosfiles key).1 key = none) ∧
    ((reset_job_registry objdict eosfiles key).2 key = none) ∧
    (∀ k, k ≠ key → (reset_job_registry objdict eosfiles key).1 k = objdict k ∧
      (reset_job_registry objdict eosfiles key).2 k = eosfiles k) ∧
    (objdict key = none → (reset_job_registry objdict eosfiles key).1 = objdict) ∧
    (eosfiles key = none → (reset_job_registry objdict eosfiles key).2 = eosfiles) ∧
    (reset_job_registry (reset_job_registry objdict eosfiles key).1
        (reset_job_registry objdict eosfiles key).2 key =
      reset_job_registry objdict eosfiles key) := by
  refine ⟨by simp [reset_job_registry, removeKey], by simp [reset_job_registry, removeKey],
    fun k hk => ⟨by simp [reset_job_registry, removeKey, hk],
      by simp [reset_job_registry, removeKey, hk]⟩, ?_, ?_, ?_⟩
  · intro h
    funext x
    by_cases hx : x = key
    · subst hx
      simp [reset_job_registry, removeKey, h.symm]
    · simp [reset_job_registry, removeKey, hx]
  · intro h
    funext x
    by_cases hx : x = key
    · subst hx
      simp [reset_job_registry, removeKey, h.symm]
    · simp [reset_job_registry, removeKey, hx]
  · refine Prod.ext ?_ ?_ <;> funext x <;>
      simp [reset_job_registry, removeKey] <;> split_ifs <;> simp_all

/-- C5 witness: eviction of a present key at concrete registries,
including the idempotence equation. -/
theorem C5_witness :
    (reset_job_registry wJobs wRegReady "scene1").1 "scene1" = none ∧
    (reset_job_registry wJobs wRegReady "scene1").2 "scene1" = none ∧
    (reset_job_registry wJobs wRegReady "scene1").1 "other" = wJobs "other" ∧
    (reset_job_registry (reset_job_registry wJobs wRegReady "scene1").1
        (reset_job_registry wJobs wRegReady "scene1").2 "scene1" =
      reset_job_registry wJobs wRegReady "scene1") := by
  have h := C5_reset_job_registry_spec wJobs wRegReady "scene1"
  exact ⟨h.1, h.2.1, (h.2.2.1 "other" (by decide)).1, h.2.2.2.2.2⟩

/-- C4 counterexample: the claim "ready2run rejects every
notification whose source hostname does not resolve to a local
address" is false on the code: `ready2run` performs no host check at
all.  At a concrete notification whose URI names a host that the
ambient resolver maps outside the local address set, `ready2run`
still records the file path and returns true. -/
theorem C4_counterexample :
    (urlparse wMsgTerraRemote.uri).netloc ≠ "" ∧
    wResolverRemote ((urlparse wMsgTerraRemote.uri).netloc) ∉ wLocalIps ∧
    (ready2run wFsAll wMsgTerraRemote wRegEmpty "scene9" wOptions).1 = true ∧
    (ready2run wFsAll wMsgTerraRemote wRegEmpty "scene9" wOptions).2 "scene9" =
      some ⟨some "/level0/P0420064AAAAAAAAAAAAAA22001.PDS", some ""⟩ := by
  refine ⟨by decide, by decide, by decide, by decide⟩

/-- C4 (amended): the origin-host validation lives in the listener's
`check_message`, not in `ready2run`: `check_message` returns false
for every message whose URI carries a non-empty netloc that the
resolver maps outside the local address set, so such notifications
are dropped before the control loop ever calls `ready2run`. -/
theorem C4_check_message_rejects_remote (gethostbyname : String → String)
    (local_ips eos_satellites : List String) (m : PMessage)
    (hno : (urlparse m.uri).netloc ≠ "")
    (hip : gethostbyname ((urlparse m.uri).netloc) ∉ local_ips) :
    check_message gethostbyname local_ips eos_satellites (some m) = false := by
  simp only [check_message]
  split_ifs <;> simp_all

/-- C4 witness: the amended statement at the concrete remote-host
message. -/
theorem C4_witness :
    check_message wResolverRemote wLocalIps ["EOS-Terra", "EOS-Aqua"] (some wPMsgRemote) = false :=
  C4_check_message_rejects_remote wResolverRemote wLocalIps ["EOS-Terra", "EOS-Aqua"]
    wPMsgRemote (by decide) (by decide)

/-- C6: the geolocation command line for
`(options, "/a/b/mod01", "geo.hdf")` equals
`[script] + terra_options + ["-ogeo.hdf", "/a/b/mod01"]` without
attitude/ephemeris keywords and
`[script] + aqua_options + ["--att1=/x.att", "--eph1=/x.eph",
"-ogeo.hdf", "/a/b/mod01"]` with them. -/
theorem C6_geo_cmdline (options : Options) (script : String) (topts aopts : List String)
    (hs : options.modis_geo_script = script)
    (ht : options.modis_geo_options_terra = some topts)
    (ha : options.modis_geo_options_aqua = some aopts) :
    get_geo_command_line_list options "/a/b/mod01" "geo.hdf" none none =
      [script] ++ topts ++ ["-ogeo.hdf", "/a/b/mod01"] ∧
    get_geo_command_line_list options "/a/b/mod01" "geo.hdf" (some "/x.att") (some "/x.eph") =
      [script] ++ aopts ++ ["--att1=/x.att", "--eph1=/x.eph", "-ogeo.hdf", "/a/b/mod01"] := by
  have hb : "-o" ++ os_path_basename "geo.hdf" = "-ogeo.hdf" := rfl
  have h1 : "--att1=" ++ "/x.att" = "--att1=/x.att" := rfl
  have h2 : "--eph1=" ++ "/x.eph" = "--eph1=/x.eph" := rfl
  constructor
  · simp only [get_geo_command_line_list, hs, ht]
    cases topts <;> simp [hb]
  · simp only [get_geo_command_line_list, hs, ha]
    cases aopts <;> simp [hb, h1, h2]

/-- C6 witness: both equations at a concrete options dict carrying
the SeaDAS option lists. -/
theorem C6_witness :
    get_geo_command_line_list wGeoOptions "/a/b/mod01" "geo.hdf" none none =
      ["modis_GEO.py"] ++ ["--verbose", "--enable-dem", "--entrained", "--disable-download"] ++
        ["-ogeo.hdf", "/a/b/mod01"] ∧
    get_geo_command_line_list wGeoOptions "/a/b/mod01" "geo.hdf" (some "/x.att") (some "/x.eph") =
      ["modis_GEO.py"] ++ ["--verbose", "--enable-dem", "--disable-download"] ++
        ["--att1=/x.att", "--eph1=/x.eph", "-ogeo.hdf", "/a/b/mod01"] :=
  C6_geo_cmdline wGeoOptions "modis_GEO.py"
    ["--verbose", "--enable-dem", "--entrained", "--disable-download"]
    ["--verbose", "--enable-dem", "--disable-download"] rfl rfl rfl

/-- C8: `ready2run` never removes recorded state: for every scene
key, the entry itself, its modis role, its packet role, and the
ready (both-roles) state each persist across any call, so a key once
observed ready stays ready until evicted. -/
theorem C8_registry_monotone (fs : String → Bool) (msg : MessageData) (eos : Registry)
    (sid : String) (opts : Options) (k : String) :
    ((eos k).isSome = true → (((ready2run fs msg eos sid opts).2 k)).isSome = true) ∧
    (hasModis (eos k) = true → hasModis ((ready2run fs msg eos sid opts).2 k) = true) ∧
    (hasPacket (eos k) = true → hasPacket ((ready2run fs msg eos sid opts).2 k) = true) ∧
    (bothRoles (eos k) = true → bothRoles ((ready2run fs msg eos sid opts).2 k) = true) := by
  refine ⟨fun h => ready2run_mono_entry fs msg eos sid opts k h,
    fun h => ready2run_mono_modis fs msg eos sid opts k h,
    fun h => ready2run_mono_packet fs msg eos sid opts k h,
    fun h => ?_⟩
  unfold bothRoles at h ⊢
  rw [Bool.and_eq_true] at h ⊢
  exact ⟨ready2run_mono_modis fs msg eos sid opts k h.1,
    ready2run_mono_packet fs msg eos sid opts k h.2⟩

/-- C8 witness: a ready scene key stays ready across an unrelated
nonexistent-file notification. -/
theorem C8_witness :
    (((ready2run wFsNone wMsgJunk wRegReady "scene1" wOptions).2 "scene1")).isSome = true ∧
    hasModis ((ready2run wFsNone wMsgJunk wRegReady "scene1" wOptions).2 "scene1") = true ∧
    hasPacket ((ready2run wFsNone wMsgJunk wRegReady "scene1" wOptions).2 "scene1") = true ∧
    bothRoles ((ready2run wFsNone wMsgJunk wRegReady "scene1" wOptions).2 "scene1") = true := by
  have h := C8_registry_monotone wFsNone wMsgJunk wRegReady "scene1" wOptions "scene1"
  exact ⟨h.1 (by decide), h.2.1 (by decide), h.2.2.1 (by decide), h.2.2.2 (by decide)⟩

/-- C9: a single EOS-Terra notification on a fresh scene key whose
filename matches the configured Terra naming pattern and whose file
exists returns true immediately, recording the file path as the
modis role and the empty string as the packet role. -/
theorem C9_terra_single_notification (fs : String → Bool) (msg : MessageData) (eos : Registry)
    (sid : String) (opts : Options)
    (hfresh : eos sid = none)
    (hplat : msg.platform_name = "EOS-Terra")
    (hsen : msg.sensor = SensorVal.str "modis")
    (hmatch : terraMatches opts (os_path_basename ((urlparse msg.uri).path)) = true)
    (hex : fs ((urlparse msg.uri).path) = true) :
    (ready2run fs msg eos sid opts).1 = true ∧
    (ready2run fs msg eos sid opts).2 sid =
      some ⟨some ((urlparse msg.uri).path), some ""⟩ := by
  simp only [ready2run]
  rw [if_pos ⟨hplat, hsen⟩, if_pos hmatch, if_neg (by simp [hex])]
  constructor
  · rw [readyCheck_fst, updateReg_self]
    simp [bothRoles, hasModis, hasPacket]
  · rw [readyCheck_snd, updateReg_self]

/-- C9 witness: the Terra notification fixture on a fresh key with
its file present. -/
theorem C9_witness :
    (ready2run wFsAll wMsgTerra wRegEmpty "sceneT" wOptions).1 = true ∧
    (ready2run wFsAll wMsgTerra wRegEmpty "sceneT" wOptions).2 "sceneT" =
      some ⟨some "/level0/P0420064AAAAAAAAAAAAAA22001.PDS", some ""⟩ := by
  have h := C9_terra_single_notification wFsAll wMsgTerra wRegEmpty "sceneT" wOptions
    rfl rfl rfl (by decide) rfl
  exact ⟨h.1, h.2.trans (by decide)⟩

/-- C10: `get_geo_command_line_list` uses the aqua option set and the
`--att1`/`--eph1` arguments exactly when both the attitude and the
ephemeris keywords are supplied; with exactly one of them supplied,
the keyword is ignored and the command line is identical to the call
with neither. -/
theorem C10_geo_kwargs (options : Options) (m1 m3 a e : String) :
    get_geo_command_line_list options m1 m3 (some a) none =
      get_geo_command_line_list options m1 m3 none none ∧
    get_geo_command_line_list options m1 m3 none (some e) =
      get_geo_command_line_list options m1 m3 none none ∧
    get_geo_command_line_list options m1 m3 (some a) (some e) =
      [options.modis_geo_script] ++ (options.modis_geo_options_aqua).getD [] ++
        ["--att1=" ++ a, "--eph1=" ++ e, "-o" ++ os_path_basename m3, m1] := by
  refine ⟨rfl, rfl, ?_⟩
  cases h : options.modis_geo_options_aqua with
  | none => simp [get_geo_command_line_list, h]
  | some l => cases l <;> simp [get_geo_command_line_list, h]

/-! ### Characterization of the ancillary freshness check -/

theorem navCheckFile_characterize (fsys : FileSys) (now thr_days : Nat) (dir bname : String) :
    navCheckFile fsys now thr_days dir bname =
      (if navFileRaisesParse fsys now thr_days dir bname = true then none
       else some (navFileFresh fsys now thr_days dir bname)) := by
  simp only [navCheckFile, navFileRaisesParse, navFileFresh]
  cases hpe : fsys.pathExists (os_path_join dir bname) <;> simp [hpe]
  cases hsp : splitDatTimestamp (os_path_basename (fsys.realpath (os_path_join dir bname))) <;>
    simp [hsp]
  cases hst : strptime_YmdHM _ <;> simp [hst]
  split_ifs <;> simp_all

theorem navFileSoftFails_eq (fsys : FileSys) (now thr_days : Nat) (dir bname : String) :
    navFileSoftFails fsys now thr_days dir bname =
      (!navFileFresh fsys now thr_days dir bname &&
        !navFileRaisesParse fsys now thr_days dir bname) := by
  simp only [navFileSoftFails, navFileFresh, navFileRaisesParse]
  cases hpe : fsys.pathExists (os_path_join dir bname) <;> simp [hpe]
  cases hsp : splitDatTimestamp (os_path_basename (fsys.realpath (os_path_join dir bname))) <;>
    simp [hsp]
  cases hst : strptime_YmdHM _ <;> simp [hst]

theorem navFileFresh_not_raises (fsys : FileSys) (now thr_days : Nat) (dir bname : String) :
    navFileFresh fsys now thr_days dir bname = true →
    navFileRaisesParse fsys now thr_days dir bname = false := by
  simp only [navFileFresh, navFileRaisesParse]
  cases hpe : fsys.pathExists (os_path_join dir bname) <;> simp [hpe]
  cases hsp : splitDatTimestamp (os_path_basename (fsys.realpath (os_path_join dir bname))) <;>
    simp [hsp]
  cases hst : strptime_YmdHM _ <;> simp [hst]

/-- C7 counterexample: the claim that the freshness check "returns
(rather than raising) in every failure case, in particular for an
unparsable embedded timestamp" is false on the code: when
`utcpole.dat` resolves to a backup whose `.dat_` timestamp field does
not parse, `datetime.strptime` raises an uncaught `ValueError`
(only `IndexError` is caught), modelled here as the `none` result. -/
theorem C7_counterexample :
    navFileRaisesParse wFsRaise 0 14 "/etc" "utcpole.dat" = true ∧
    check_utcpole_and_leapsec_files wFsRaise 0 "/etc" 14 = none := by
  exact ⟨by decide, by decide⟩

/-- C7 (amended): the freshness check returns true exactly when both
helper files pass every check; it returns false when the first
failing file is absent, not linked to a `.dat_`-timestamped backup,
or older than the threshold; but when a file carries a timestamp
field that does not parse, the function raises (modelled as `none`)
instead of returning false. -/
theorem C7_freshness_spec (fsys : FileSys) (now thr_days : Nat) (dir : String) :
    (check_utcpole_and_leapsec_files fsys now dir thr_days = some true ↔
      navFileFresh fsys now thr_days dir "utcpole.dat" = true ∧
      navFileFresh fsys now thr_days dir "leapsec.dat" = true) ∧
    (navFileSoftFails fsys now thr_days dir "utcpole.dat" = true →
      check_utcpole_and_leapsec_files fsys now dir thr_days = some false) ∧
    (navFileFresh fsys now thr_days dir "utcpole.dat" = true →
      navFileSoftFails fsys now thr_days dir "leapsec.dat" = true →
      check_utcpole_and_leapsec_files fsys now dir thr_days = some false) ∧
    (navFileRaisesParse fsys now thr_days dir "utcpole.dat" = true →
      check_utcpole_and_leapsec_files fsys now dir thr_days = none) ∧
    (navFileFresh fsys now thr_days dir "utcpole.dat" = true →
      navFileRaisesParse fsys now thr_days dir "leapsec.dat" = true →
      check_utcpole_and_leapsec_files fsys now dir thr_days = none) := by
  have hsu := navFileSoftFails_eq fsys now thr_days dir "utcpole.dat"
  have hsl := navFileSoftFails_eq fsys now thr_days dir "leapsec.dat"
  have heu := navFileFresh_not_raises fsys now thr_days dir "utcpole.dat"
  have hel := navFileFresh_not_raises fsys now thr_days dir "leapsec.dat"
  simp only [check_utcpole_and_leapsec_files, NAVIGATION_HELPER_FILES, navCheckLoop,
    navCheckFile_characterize]
  cases hru : navFileRaisesParse fsys now thr_days dir "utcpole.dat" <;>
    cases hfu : navFileFresh fsys now thr_days dir "utcpole.dat" <;>
    cases hrl : navFileRaisesParse fsys now thr_days dir "leapsec.dat" <;>
    cases hfl : navFileFresh fsys now thr_days dir "leapsec.dat" <;>
    simp_all

/-- C7 witness: the soft-failure, success and raising cases of the
amended statement at concrete filesystems. -/
theorem C7_witness :
    check_utcpole_and_leapsec_files wFsMissing 0 "/etc" 14 = some false ∧
    check_utcpole_and_leapsec_files wFsGood 1063469520 "/etc" 14 = some true ∧
    check_utcpole_and_leapsec_files wFsGood 1063490681 "/etc" 14 = some false := by
  refine ⟨(C7_freshness_spec wFsMissing 0 14 "/etc").2.1 (by decide),
    (C7_freshness_spec wFsGood 1063469520 14 "/etc").1.mpr ⟨by decide, by decide⟩,
    (C7_freshness_spec wFsGood 1063490681 14 "/etc").2.1 (by decide)⟩

end ModisRunner
